import Mathlib

/-!
Verification of the FWA (fraud/waste/abuse) detection and incident lifecycle
engine of the compliance repository.

The embedding translates, from the JavaScript source:
  * src/src/models/FWAIncident.js — the Sequelize model: the beforeCreate /
    beforeUpdate hooks, calculateRiskScore, and the instance methods
    escalate and referToOIG;
  * src/src/middleware/auth.js (the FWADetectionService class) — confidence
    fusion for call transcripts, risk-level thresholds, billing statistics,
    billing anomaly/pattern detection, incident-type resolution and
    reportFWAIncident.

Modelling conventions: JavaScript numbers are modelled as rationals (ℚ);
timestamps (Date.now(), new Date()) as a Nat millisecond parameter passed to
each operation; JSONB timeline entries as association lists of string keys to
a small value type, so that exactly the keys the source writes are present.
-/

namespace Compliance

/-- severity ENUM of FWAIncident.js (lines 34-38). -/
inductive Severity
  | LOW | MEDIUM | HIGH | CRITICAL
  deriving DecidableEq

/-- incident_type ENUM of FWAIncident.js (lines 18-32). -/
inductive IncidentType
  | FRAUD | WASTE | ABUSE | COMPLIANCE_VIOLATION | SUSPICIOUS_ACTIVITY
  | IDENTITY_THEFT | BILLING_IRREGULARITY | ENROLLMENT_MANIPULATION
  | BENEFIT_MISREPRESENTATION | UNAUTHORIZED_DISCLOSURE
  deriving DecidableEq, Fintype

/-- status ENUM of FWAIncident.js (lines 40-53). -/
inductive Status
  | REPORTED | UNDER_INVESTIGATION | SUBSTANTIATED | UNSUBSTANTIATED
  | REFERRED_TO_OIG | REFERRED_TO_CMS | RESOLVED | CLOSED
  deriving DecidableEq

/-- The string value of an incident_type enum member (the strings stored in
the database column and used by beforeCreate for the incident number). -/
def typeName : IncidentType → String
  | .FRAUD => "FRAUD"
  | .WASTE => "WASTE"
  | .ABUSE => "ABUSE"
  | .COMPLIANCE_VIOLATION => "COMPLIANCE_VIOLATION"
  | .SUSPICIOUS_ACTIVITY => "SUSPICIOUS_ACTIVITY"
  | .IDENTITY_THEFT => "IDENTITY_THEFT"
  | .BILLING_IRREGULARITY => "BILLING_IRREGULARITY"
  | .ENROLLMENT_MANIPULATION => "ENROLLMENT_MANIPULATION"
  | .BENEFIT_MISREPRESENTATION => "BENEFIT_MISREPRESENTATION"
  | .UNAUTHORIZED_DISCLOSURE => "UNAUTHORIZED_DISCLOSURE"

/-- The string value of a status enum member (used by the beforeUpdate hook
to build the STATUS_CHANGED_TO_ timeline action). -/
def statusName : Status → String
  | .REPORTED => "REPORTED"
  | .UNDER_INVESTIGATION => "UNDER_INVESTIGATION"
  | .SUBSTANTIATED => "SUBSTANTIATED"
  | .UNSUBSTANTIATED => "UNSUBSTANTIATED"
  | .REFERRED_TO_OIG => "REFERRED_TO_OIG"
  | .REFERRED_TO_CMS => "REFERRED_TO_CMS"
  | .RESOLVED => "RESOLVED"
  | .CLOSED => "CLOSED"

/-- Values appearing in JSONB timeline entries. A timeline entry is an
association list of string keys to such values, mirroring the object
literals the source builds (FWAIncident.js lines 264-272, 281-285, 351-357,
371-376). The details constructor stands for the nested object
(with keys type and method) of the REPORTED entry. -/
inductive JVal
  | str (v : String)
  | sev (v : Severity)
  | num (v : Nat)
  | strs (v : List String)
  | details (type method : String)
  deriving DecidableEq

/-- A timeline entry: the JSONB object, with exactly the keys the source
sets, in the order the source literal writes them. -/
abbrev Entry := List (String × JVal)

/-- compliance_impact JSONB column (FWAIncident.js lines 221-229). -/
structure ComplianceImpact where
  cms_violation : Bool
  hipaa_violation : Bool
  false_claims_act : Bool
  anti_kickback : Bool
  deriving DecidableEq

/-- The FWAIncident row: the columns the engine reads or writes. rowId
stands for the UUID primary key (only used to tell rows apart).
financial_impact and the date columns are nullable, hence Option. -/
structure Incident where
  rowId : Nat
  incident_number : List Char
  incident_type : IncidentType
  severity : Severity
  status : Status
  detection_method : String
  reporter_type : String
  reporter_id : Option String
  incident_date : Nat
  description : String
  affected_count : Int
  financial_impact : Option ℚ
  compliance_impact : ComplianceImpact
  oig_referral : Bool
  oig_case_number : Option String
  regulatory_reported : Bool
  regulatory_report_date : Option Nat
  investigation_started : Option Nat
  investigation_completed : Option Nat
  ai_confidence_score : Option ℚ
  risk_score : Option Nat
  timeline : List Entry
  deriving DecidableEq

/-- severityScores table of calculateRiskScore (FWAIncident.js line 311).
The source's fallback value 0 is unreachable for enum-valued rows. -/
def severityScore : Severity → Nat
  | .LOW => 10
  | .MEDIUM => 25
  | .HIGH => 50
  | .CRITICAL => 75

/-- typeScores table of calculateRiskScore (FWAIncident.js lines 315-324),
with the source's default of 10 for types absent from the table. -/
def typeScore : IncidentType → Nat
  | .FRAUD => 25
  | .IDENTITY_THEFT => 20
  | .UNAUTHORIZED_DISCLOSURE => 20
  | .BILLING_IRREGULARITY => 15
  | .ENROLLMENT_MANIPULATION => 15
  | .ABUSE => 10
  | .WASTE => 5
  | _ => 10

/-- Financial-impact band of calculateRiskScore (FWAIncident.js lines
327-329). A null column compares false against every band in JS, adding 0. -/
def financialBand : Option ℚ → Nat
  | none => 0
  | some v => if v > 100000 then 25 else if v > 10000 then 15 else if v > 1000 then 5 else 0

/-- Affected-beneficiaries band of calculateRiskScore (FWAIncident.js lines
332-334). -/
def affectedBand (n : Int) : Nat :=
  if n > 100 then 20 else if n > 10 then 10 else if n > 1 then 5 else 0

/-- calculateRiskScore (FWAIncident.js lines 307-344). -/
def calculateRiskScore (inc : Incident) : Nat :=
  let score :=
    severityScore inc.severity
    + typeScore inc.incident_type
    + financialBand inc.financial_impact
    + affectedBand inc.affected_count
    + (if inc.compliance_impact.false_claims_act then 30 else 0)
    + (if inc.compliance_impact.anti_kickback then 25 else 0)
    + (if inc.compliance_impact.cms_violation then 20 else 0)
    + (if inc.compliance_impact.hipaa_violation then 15 else 0)
  min 100 score

/-- Character of one base-36 digit as produced by Number.prototype.toString(36)
followed by toUpperCase (FWAIncident.js line 260): 0-9 then A-Z. -/
def b36Char (d : Nat) : Char :=
  if d < 10 then Char.ofNat (48 + d) else Char.ofNat (55 + d)

/-- Little-endian base-36 digit expansion, with an explicit fuel argument so
that the recursion is structural; fuel n is always enough since the number
shrinks by a factor of 36 each step. -/
def b36DigitsAux : Nat → Nat → List Nat
  | _, 0 => []
  | 0, _ + 1 => []
  | fuel + 1, n + 1 => (n + 1) % 36 :: b36DigitsAux fuel ((n + 1) / 36)

/-- The little-endian base-36 digits of n (empty for 0). -/
def b36Digits (n : Nat) : List Nat := b36DigitsAux n n

/-- Date.now().toString(36).toUpperCase() for a millisecond count: the most
significant digit first; (0).toString(36) is the single digit "0". -/
def toBase36 (n : Nat) : List Char :=
  if n = 0 then ['0'] else ((b36Digits n).reverse.map b36Char)

/-- incident_type.substring(0, 3).toUpperCase() (FWAIncident.js line 259);
the enum strings are already upper case. -/
def typeCode (t : IncidentType) : List Char :=
  (typeName t).toList.take 3

/-- The incident number built by the beforeCreate hook (FWAIncident.js lines
259-261): three-letter type code, a dash, then the creation time in
milliseconds rendered in upper-case base 36. -/
def genIncidentNumber (t : IncidentType) (nowMs : Nat) : List Char :=
  typeCode t ++ '-' :: toBase36 nowMs

/-- The REPORTED timeline entry written by beforeCreate (FWAIncident.js
lines 264-272). -/
def reportedEntry (now : Nat) (user : String) (itype method : String) : Entry :=
  [("action", .str "REPORTED"), ("timestamp", .num now), ("user", .str user),
   ("details", .details itype method)]

/-- Emits the field name when the field's new value differs from the stored
one; building block of the changed() list. -/
def flag (changed : Bool) (field : String) : List String :=
  if changed then [field] else []

/-- The list incident.changed() that the beforeUpdate hook inspects: the
names of the columns whose assigned value differs from the loaded row, in
declaration order. orig is the loaded row, cur the mutated instance. -/
def changedFields (orig cur : Incident) : List String :=
  flag (decide (cur.incident_number ≠ orig.incident_number)) "incident_number"
  ++ flag (decide (cur.incident_type ≠ orig.incident_type)) "incident_type"
  ++ flag (decide (cur.severity ≠ orig.severity)) "severity"
  ++ flag (decide (cur.status ≠ orig.status)) "status"
  ++ flag (decide (cur.detection_method ≠ orig.detection_method)) "detection_method"
  ++ flag (decide (cur.reporter_type ≠ orig.reporter_type)) "reporter_type"
  ++ flag (decide (cur.reporter_id ≠ orig.reporter_id)) "reporter_id"
  ++ flag (decide (cur.incident_date ≠ orig.incident_date)) "incident_date"
  ++ flag (decide (cur.description ≠ orig.description)) "description"
  ++ flag (decide (cur.affected_count ≠ orig.affected_count)) "affected_count"
  ++ flag (decide (cur.financial_impact ≠ orig.financial_impact)) "financial_impact"
  ++ flag (decide (cur.compliance_impact ≠ orig.compliance_impact)) "compliance_impact"
  ++ flag (decide (cur.oig_referral ≠ orig.oig_referral)) "oig_referral"
  ++ flag (decide (cur.oig_case_number ≠ orig.oig_case_number)) "oig_case_number"
  ++ flag (decide (cur.regulatory_reported ≠ orig.regulatory_reported)) "regulatory_reported"
  ++ flag (decide (cur.regulatory_report_date ≠ orig.regulatory_report_date)) "regulatory_report_date"
  ++ flag (decide (cur.investigation_started ≠ orig.investigation_started)) "investigation_started"
  ++ flag (decide (cur.investigation_completed ≠ orig.investigation_completed)) "investigation_completed"
  ++ flag (decide (cur.ai_confidence_score ≠ orig.ai_confidence_score)) "ai_confidence_score"
  ++ flag (decide (cur.risk_score ≠ orig.risk_score)) "risk_score"
  ++ flag (decide (cur.timeline ≠ orig.timeline)) "timeline"

/-- The body of the beforeUpdate hook (FWAIncident.js lines 281-300), run on
the mutated instance with the non-empty changed() list: build the timeline
entry (action UPDATED, or STATUS_CHANGED_TO_ the new status when status is
among the changes), set the investigation dates on the relevant status
changes if not already set, append the entry, and recompute risk_score. -/
def applyUpdateHook (cur : Incident) (changes : List String) (now : Nat) : Incident :=
  let statusChanged := "status" ∈ changes
  let action :=
    if statusChanged then "STATUS_CHANGED_TO_" ++ statusName cur.status else "UPDATED"
  let cur1 :=
    if statusChanged ∧ cur.status = .UNDER_INVESTIGATION ∧ cur.investigation_started = none
    then { cur with investigation_started := some now } else cur
  let cur2 :=
    if statusChanged ∧ cur1.status ∈ [Status.RESOLVED, Status.CLOSED, Status.UNSUBSTANTIATED]
       ∧ cur1.investigation_completed = none
    then { cur1 with investigation_completed := some now } else cur1
  let entry : Entry := [("action", .str action), ("timestamp", .num now), ("changes", .strs changes)]
  let cur3 := { cur2 with timeline := cur2.timeline ++ [entry] }
  { cur3 with risk_score := some (calculateRiskScore cur3) }

/-- instance.save() with the beforeUpdate hook (FWAIncident.js lines
278-302): with no changes the hook body is skipped. -/
def save (orig cur : Incident) (now : Nat) : Incident :=
  let changes := changedFields orig cur
  if changes = [] then cur
  else applyUpdateHook cur changes now

/-- The one-level severity bump of escalate (FWAIncident.js lines 348-349):
LOW to MEDIUM, MEDIUM to HIGH, anything else to CRITICAL. -/
def escalateSeverity : Severity → Severity
  | .LOW => .MEDIUM
  | .MEDIUM => .HIGH
  | _ => .CRITICAL

/-- The ESCALATED timeline entry (FWAIncident.js lines 351-357): it carries
the user, the reason and the new severity — these are all its keys. -/
def escalatedEntry (now : Nat) (user reason : String) (newSev : Severity) : Entry :=
  [("action", .str "ESCALATED"), ("timestamp", .num now), ("user", .str user),
   ("reason", .str reason), ("new_severity", .sev newSev)]

/-- The mutated instance state escalate builds before calling save
(FWAIncident.js lines 348-359): severity bumped, ESCALATED entry appended. -/
def escCur (inc : Incident) (reason userId : String) (now : Nat) : Incident :=
  { inc with
    severity := escalateSeverity inc.severity,
    timeline := inc.timeline ++
      [escalatedEntry now userId reason (escalateSeverity inc.severity)] }

/-- FWAIncident.prototype.escalate (FWAIncident.js lines 347-362): bump the
severity, append the ESCALATED entry, then save (running beforeUpdate). -/
def escalate (inc : Incident) (reason userId : String) (now : Nat) : Incident :=
  save inc (escCur inc reason userId now) now

/-- The REFERRED_TO_OIG timeline entry (FWAIncident.js lines 371-376). -/
def referredEntry (now : Nat) (user caseNumber : String) : Entry :=
  [("action", .str "REFERRED_TO_OIG"), ("timestamp", .num now), ("user", .str user),
   ("case_number", .str caseNumber)]

/-- The mutated instance state referToOIG builds before calling save
(FWAIncident.js lines 365-378). -/
def refCur (inc : Incident) (caseNumber userId : String) (now : Nat) : Incident :=
  { inc with
    oig_referral := true,
    oig_case_number := some caseNumber,
    regulatory_reported := true,
    regulatory_report_date := some now,
    status := .REFERRED_TO_OIG,
    timeline := inc.timeline ++ [referredEntry now userId caseNumber] }

/-- FWAIncident.prototype.referToOIG (FWAIncident.js lines 364-381): set the
referral fields and the status unconditionally — there is no check of the
current status anywhere on this path — append the entry, then save. -/
def referToOIG (inc : Incident) (caseNumber userId : String) (now : Nat) : Incident :=
  save inc (refCur inc caseNumber userId now) now

/-- The attributes a caller passes to FWAIncident.create; the hook-derived
columns (incident_number, timeline) are not caller-suppliable, but risk_score
is accepted from the caller (reportFWAIncident passes one) and then
overwritten by the hook. -/
structure CreateInput where
  rowId : Nat
  incident_type : IncidentType
  severity : Severity
  detection_method : String
  reporter_type : String
  reporter_id : Option String
  incident_date : Nat
  description : String
  affected_count : Int
  financial_impact : Option ℚ
  compliance_impact : ComplianceImpact
  ai_confidence_score : Option ℚ
  risk_score : Option Nat
  deriving DecidableEq

/-- FWAIncident.create with the beforeCreate hook (FWAIncident.js lines
257-276): columns from the input (status defaulting to REPORTED), then the
hook generates the incident number, initializes the timeline with the
REPORTED entry (user defaulting to SYSTEM), and computes the risk score,
overwriting any caller-supplied risk_score. -/
def createIncident (input : CreateInput) (now : Nat) : Incident :=
  let base : Incident := {
    rowId := input.rowId,
    incident_number := [],
    incident_type := input.incident_type,
    severity := input.severity,
    status := .REPORTED,
    detection_method := input.detection_method,
    reporter_type := input.reporter_type,
    reporter_id := input.reporter_id,
    incident_date := input.incident_date,
    description := input.description,
    affected_count := input.affected_count,
    financial_impact := input.financial_impact,
    compliance_impact := input.compliance_impact,
    oig_referral := false,
    oig_case_number := none,
    regulatory_reported := false,
    regulatory_report_date := none,
    investigation_started := none,
    investigation_completed := none,
    ai_confidence_score := input.ai_confidence_score,
    risk_score := input.risk_score,
    timeline := [] }
  let base := { base with incident_number := genIncidentNumber base.incident_type now }
  let base := { base with timeline :=
    [reportedEntry now (base.reporter_id.getD "SYSTEM") (typeName base.incident_type)
      base.detection_method] }
  { base with risk_score := some (calculateRiskScore base) }

/-! ## FWADetectionService (src/src/middleware/auth.js, lines 611-1190) -/

/-- Risk level strings of the detection service. -/
inductive RiskLevel
  | LOW | MEDIUM | HIGH | CRITICAL
  deriving DecidableEq

def riskLevelName : RiskLevel → String
  | .LOW => "LOW"
  | .MEDIUM => "MEDIUM"
  | .HIGH => "HIGH"
  | .CRITICAL => "CRITICAL"

/-- A pattern finding. patternMatcher.analyzeText (lines 738-773) produces
objects with keys category, pattern, confidence, or (for the keyword match)
category, count, confidence; detectBillingPatterns (lines 1125-1144)
produces objects with keys type, count, confidence, description. Absent
keys are none — in particular billing pattern findings carry no category. -/
structure Pattern where
  category : Option String
  ptype : Option String
  pattern : Option String
  count : Option Nat
  confidence : ℚ
  description : Option String
  deriving DecidableEq

/-- Output of classifyText (lines 1005-1015): { confidence, class }; the
class field is named cls here because class is a Lean keyword. -/
structure Classification where
  confidence : ℚ
  cls : String
  deriving DecidableEq

/-- One entry of analysis.indicators (generateIndicators, lines 1024-1053). -/
structure Indicator where
  itype : String
  category : Option String
  confidence : ℚ
  description : String
  deriving DecidableEq

/-- One entry of analysis.recommendations (lines 1055-1083). -/
structure Recommendation where
  priority : String
  action : String
  description : String
  deriving DecidableEq

/-- The riskThresholds table (lines 654-659). -/
def thresholdLOW : ℚ := 3/10
def thresholdMEDIUM : ℚ := 3/5
def thresholdHIGH : ℚ := 4/5
def thresholdCRITICAL : ℚ := 9/10

/-- determineRiskLevel (lines 1017-1022). -/
def determineRiskLevel (confidence : ℚ) : RiskLevel :=
  if confidence ≥ thresholdCRITICAL then .CRITICAL
  else if confidence ≥ thresholdHIGH then .HIGH
  else if confidence ≥ thresholdMEDIUM then .MEDIUM
  else .LOW

/-- generateIndicators (lines 1024-1053): one PATTERN_MATCH indicator per
pattern, a SENTIMENT indicator when sentiment < -0.3, an AI_CLASSIFICATION
indicator when the classifier said FRAUD. A pattern with no category prints
undefined in the JS template string. -/
def generateIndicators (patterns : List Pattern) (sentiment : ℚ)
    (classification : Classification) : List Indicator :=
  (patterns.map fun p =>
    { itype := "PATTERN_MATCH", category := p.category, confidence := p.confidence,
      description := "Suspicious " ++ (p.category.getD "undefined") ++ " pattern detected" })
  ++ (if sentiment < -(3/10) then
      [{ itype := "SENTIMENT", category := none, confidence := |sentiment|,
         description := "Negative sentiment detected in communication" }] else [])
  ++ (if classification.cls = "FRAUD" then
      [{ itype := "AI_CLASSIFICATION", category := none, confidence := classification.confidence,
         description := "AI model classified content as potentially fraudulent" }] else [])

/-- generateRecommendations (lines 1055-1083), a function of the analysis
fields it reads: riskLevel, patterns and confidence. -/
def generateRecommendations (riskLevel : RiskLevel) (patterns : List Pattern)
    (confidence : ℚ) : List Recommendation :=
  (if riskLevel = .CRITICAL then
    [{ priority := "IMMEDIATE", action := "Initiate emergency investigation",
       description := "Critical risk level detected - immediate action required" }] else [])
  ++ (if patterns.any (fun p => p.category = some "billing") then
    [{ priority := "HIGH", action := "Review billing records",
       description := "Billing irregularities detected - conduct detailed audit" }] else [])
  ++ (if confidence > 7/10 then
    [{ priority := "MEDIUM", action := "Flag for compliance review",
       description := "High confidence FWA detection - requires human review" }] else [])

/-- The analysis object returned by analyzeCallTranscript (lines 779-839);
metadata is the caller's metadata spread together with analyzedAt and
textLength. -/
structure Analysis where
  confidence : ℚ
  riskLevel : RiskLevel
  indicators : List Indicator
  patterns : List Pattern
  recommendations : List Recommendation
  callId : Option String
  agentId : Option String
  analyzedAt : Nat
  textLength : Nat
  deriving DecidableEq

/-- The fusion body of analyzeCallTranscript (lines 779-839), parameterized
over the extractor outputs — the pattern findings of
patternMatcher.analyzeText, the classifyText result and the sentiment score —
each of which is a pure function of the transcript in the source. now is the
clock read for metadata.analyzedAt. -/
def analyzeCall (textLength : Nat) (patterns : List Pattern)
    (classification : Classification) (sentiment : ℚ)
    (callId agentId : Option String) (now : Nat) : Analysis :=
  let patternConfidence := patterns.foldl (fun acc p => max acc p.confidence) 0
  let sentimentImpact : ℚ := if sentiment < -(3/10) then 1/5 else 0
  let confidence :=
    min 1 (patternConfidence * (1/2) + classification.confidence * (2/5) + sentimentImpact)
  let riskLevel := determineRiskLevel confidence
  { confidence := confidence,
    riskLevel := riskLevel,
    indicators := generateIndicators patterns sentiment classification,
    patterns := patterns,
    recommendations := generateRecommendations riskLevel patterns confidence,
    callId := callId, agentId := agentId, analyzedAt := now, textLength := textLength }

/-- analyzeCallTranscript with its try/catch (lines 775-845), with the
classifier step as a fallible input: the catch block logs and rethrows
(throw error, line 843), so a classifier failure propagates to the caller
unchanged and no analysis is produced. -/
def analyzeCallTranscriptE (textLength : Nat) (patterns : List Pattern)
    (classify : Except String Classification) (sentiment : ℚ)
    (callId agentId : Option String) (now : Nat) : Except String Analysis :=
  match classify with
  | .error e => .error e
  | .ok c => .ok (analyzeCall textLength patterns c sentiment callId agentId now)

/-- The redis analysis cache. analyzeCallTranscript only ever writes it
(cacheHelpers.setWithExpiry, lines 831-835, TTL 3600 s); no code path reads
a fwa_analysis key. -/
abbrev Cache := List (String × Analysis)

/-- cacheHelpers.setWithExpiry on the analysis cache. -/
def setWithExpiry (cache : Cache) (key : String) (a : Analysis) : Cache :=
  (key, a) :: cache

/-- analyzeCallTranscript including its cache write: the returned analysis
is computed from the inputs alone, then stored under
fwa_analysis:(callId or unknown). -/
def analyzeWithCache (cache : Cache) (textLength : Nat) (patterns : List Pattern)
    (classification : Classification) (sentiment : ℚ)
    (callId agentId : Option String) (now : Nat) : Analysis × Cache :=
  let a := analyzeCall textLength patterns classification sentiment callId agentId now
  (a, setWithExpiry cache ("fwa_analysis:" ++ callId.getD "unknown") a)

/-! ### Billing analysis -/

/-- One billing record of a batch: { id, amount }. -/
structure Bill where
  id : Nat
  amount : ℚ
  deriving DecidableEq

/-- A STATISTICAL_OUTLIER anomaly (detectBillingAnomalies, lines 1104-1123).
The JS object also stores the real-valued zScore itself; being an irrational
square root it is not carried here — the two comparisons made on it
(zScore > 3 and zScore > 4) are decided exactly on squares below. -/
structure Anomaly where
  atype : String
  billId : Nat
  amount : ℚ
  severity : ℚ
  description : String
  deriving DecidableEq

/-- stats.mean of calculateBillingStatistics (line 1090). -/
def billingMean (bills : List Bill) : ℚ :=
  ((bills.map Bill.amount).sum) / bills.length

/-- stats.stdDev squared, i.e. the population variance of line 1091.
calculateBillingStatistics also computes count, median, min and max, none of
which the anomaly detection reads. -/
def billingVariance (bills : List Bill) : ℚ :=
  ((bills.map Bill.amount).map (fun a => (a - billingMean bills) * (a - billingMean bills))).sum / bills.length

/-- detectBillingAnomalies (lines 1104-1123). The JS test is
zScore = |amount - mean| / stdDev > 3 with stdDev = sqrt variance. For
variance > 0 that is exactly (amount - mean) squared > 9 * variance; for
variance = 0 JS yields Infinity > 3 (true) when amount differs from the mean
and NaN > 3 (false) when it equals it; a negative variance gives stdDev NaN,
flagging nothing. The severity test zScore > 4 is treated the same way. -/
def detectBillingAnomalies (bills : List Bill) (mean variance : ℚ) : List Anomaly :=
  bills.filterMap fun b =>
    if (variance = 0 ∧ b.amount ≠ mean) ∨ (variance > 0 ∧ (b.amount - mean) * (b.amount - mean) > 9 * variance)
    then some
      { atype := "STATISTICAL_OUTLIER", billId := b.id, amount := b.amount,
        severity :=
          if (variance = 0 ∧ b.amount ≠ mean) ∨ (variance > 0 ∧ (b.amount - mean) * (b.amount - mean) > 16 * variance)
          then 9/10 else 7/10,
        description := "Amount significantly deviates from normal pattern" }
    else none

/-- Array.prototype.indexOf: the first index holding the value, -1 when
absent. -/
def jsIndexOf (a : ℚ) : List ℚ → Int
  | [] => -1
  | b :: rest =>
    if b = a then 0
    else
      let r := jsIndexOf a rest
      if r = -1 then -1 else r + 1

/-- The filter body of the duplicates computation, walking the list with its
running index. -/
def duplicateAmountsAux (all : List ℚ) : Int → List ℚ → List ℚ
  | _, [] => []
  | i, a :: rest =>
    (if jsIndexOf a all ≠ i then [a] else []) ++ duplicateAmountsAux all (i + 1) rest

/-- The duplicates array of detectBillingPatterns (lines 1129-1132):
amounts.filter((amount, index) => amounts.indexOf(amount) !== index), i.e.
every occurrence after the first of each repeated amount. -/
def duplicateAmounts (amounts : List ℚ) : List ℚ :=
  duplicateAmountsAux amounts 0 amounts

/-- detectBillingPatterns (lines 1125-1144): a single DUPLICATE_AMOUNTS
finding carrying the duplicate count, when any duplicate exists. Its keys
are type, count, confidence, description — it has no category key. -/
def detectBillingPatterns (bills : List Bill) : List Pattern :=
  let duplicates := duplicateAmounts (bills.map Bill.amount)
  if duplicates.length > 0 then
    [{ category := none, ptype := some "DUPLICATE_AMOUNTS", pattern := none,
       count := some duplicates.length, confidence := 4/5,
       description := some "Multiple bills with identical amounts detected" }]
  else []

/-- The analysis object of analyzeBillingPattern (lines 847-891), the fields
the engine reads downstream. -/
structure BillingAnalysis where
  confidence : ℚ
  riskLevel : RiskLevel
  anomalies : List Anomaly
  patterns : List Pattern
  deriving DecidableEq

/-- analyzeBillingPattern (lines 847-891): statistics, anomaly detection,
pattern detection, then confidence = max of the anomaly score (summed
severities / 10, capped at 1) and the pattern score (mean confidence,
capped at 1). -/
def analyzeBillingPattern (bills : List Bill) : BillingAnalysis :=
  let mean := billingMean bills
  let variance := billingVariance bills
  let anomalies := detectBillingAnomalies bills mean variance
  let patterns := detectBillingPatterns bills
  let anomalyScore : ℚ :=
    if anomalies.length > 0 then min 1 (((anomalies.map Anomaly.severity).sum) / 10) else 0
  let patternScore : ℚ :=
    if patterns.length > 0 then
      min 1 (((patterns.map Pattern.confidence).sum) / patterns.length) else 0
  let confidence := max anomalyScore patternScore
  { confidence := confidence, riskLevel := determineRiskLevel confidence,
    anomalies := anomalies, patterns := patterns }

/-! ### Incident reporting -/

/-- determineIncidentType (lines 1148-1159), a function of
analysisResult.patterns: precedence billing, enrollment, benefits on the
category key, defaulting to SUSPICIOUS_ACTIVITY. -/
def determineIncidentType (patterns : List Pattern) : IncidentType :=
  if patterns.any (fun p => p.category = some "billing") then .BILLING_IRREGULARITY
  else if patterns.any (fun p => p.category = some "enrollment") then .ENROLLMENT_MANIPULATION
  else if patterns.any (fun p => p.category = some "benefits") then .BENEFIT_MISREPRESENTATION
  else .SUSPICIOUS_ACTIVITY

/-- mapRiskToSeverity (lines 1161-1169): the identity renaming. -/
def mapRiskToSeverity : RiskLevel → Severity
  | .LOW => .LOW
  | .MEDIUM => .MEDIUM
  | .HIGH => .HIGH
  | .CRITICAL => .CRITICAL

/-- Math.round for a nonnegative JS number: half rounds up. -/
def jsRound (q : ℚ) : Nat := (⌊q + 1/2⌋).toNat

/-- (q * 100).toFixed(1), the percentage string of
generateIncidentDescription (line 1173). -/
def pct1 (q : ℚ) : String :=
  let tenths := jsRound (q * 1000)
  toString (tenths / 10) ++ "." ++ toString (tenths % 10)

/-- generateIncidentDescription (lines 1171-1178). -/
def generateIncidentDescription (confidence : ℚ) (riskLevel : RiskLevel)
    (patterns : List Pattern) (source : String) : String :=
  "AI-detected suspicious activity in " ++ source ++ ". " ++
  "Confidence: " ++ pct1 confidence ++ "%. Patterns: " ++
  String.intercalate ", " (patterns.map (fun p => p.category.getD "undefined")) ++ ". " ++
  "Risk Level: " ++ riskLevelName riskLevel ++ "."

/-- reportFWAIncident (lines 936-977). Returns none below the LOW reporting
floor; otherwise creates the incident (running beforeCreate). The Bool
records whether autoEscalateIncident — the only call into the critical-alert
path anywhere in the service — was invoked: it happens here, exactly when
the severity at creation is CRITICAL (lines 967-969). -/
def reportFWAIncident (confidence : ℚ) (riskLevel : RiskLevel)
    (patterns : List Pattern) (source : String) (reporterId : Option String)
    (rowId : Nat) (now : Nat) : Option (Incident × Bool) :=
  if confidence < thresholdLOW then none
  else
    let itype := determineIncidentType patterns
    let sev := mapRiskToSeverity riskLevel
    let inc := createIncident {
      rowId := rowId,
      incident_type := itype,
      severity := sev,
      detection_method := "AI_DETECTION",
      reporter_type := if reporterId.isSome then "EMPLOYEE" else "SYSTEM",
      reporter_id := reporterId,
      incident_date := now,
      description := generateIncidentDescription confidence riskLevel patterns source,
      affected_count := 0,
      financial_impact := none,
      compliance_impact :=
        { cms_violation := false, hipaa_violation := false,
          false_claims_act := false, anti_kickback := false },
      ai_confidence_score := some confidence,
      risk_score := some (jsRound (confidence * 100)) } now
    some (inc, sev = .CRITICAL)

/-- FWAIncident.prototype.escalate paired with the fact, visible in its body
(FWAIncident.js lines 347-362) and in the beforeUpdate hook it triggers,
that no call into autoEscalateIncident or any notification path occurs on
this code path: the Bool (alert invoked) is constantly false. -/
def escalateWithAlert (inc : Incident) (reason userId : String) (now : Nat) :
    Incident × Bool :=
  (escalate inc reason userId now, false)

/-! ## Specification-side definitions

These restate formulas in the words of the specification, to be compared
with the definitions translated from the source above. -/

/-- Severity weights as the specification states them:
LOW 10 / MEDIUM 25 / HIGH 50 / CRITICAL 75. -/
def specSeverityWeight : Severity → Nat
  | .LOW => 10
  | .MEDIUM => 25
  | .HIGH => 50
  | .CRITICAL => 75

/-- Type weights as the specification states them: FRAUD 25 down to WASTE 5
with default 10. -/
def specTypeWeight : IncidentType → Nat
  | .FRAUD => 25
  | .IDENTITY_THEFT => 20
  | .UNAUTHORIZED_DISCLOSURE => 20
  | .BILLING_IRREGULARITY => 15
  | .ENROLLMENT_MANIPULATION => 15
  | .ABUSE => 10
  | .WASTE => 5
  | _ => 10

/-- Financial band of the specification: over 100000 add 25, over 10000 add
15, over 1000 add 5, else 0 (a missing amount falls in no band). -/
def specFinancialBand : Option ℚ → Nat
  | none => 0
  | some v => if v > 100000 then 25 else if v > 10000 then 15 else if v > 1000 then 5 else 0

/-- Affected band of the specification: over 100 add 20, over 10 add 10,
over 1 add 5, else 0. -/
def specAffectedBand (n : Int) : Nat :=
  if n > 100 then 20 else if n > 10 then 10 else if n > 1 then 5 else 0

/-- The risk-score formula exactly as the specification writes it:
min(100, severityWeight + typeWeight + financialBand + affectedBand
+ 30*falseClaimsAct + 25*antiKickback + 20*cmsViolation + 15*hipaaViolation),
booleans read as 0 or 1. -/
def specRiskScore (sev : Severity) (t : IncidentType) (fi : Option ℚ)
    (affected : Int) (flags : ComplianceImpact) : Nat :=
  min 100 (specSeverityWeight sev + specTypeWeight t + specFinancialBand fi
    + specAffectedBand affected
    + 30 * (if flags.false_claims_act then 1 else 0)
    + 25 * (if flags.anti_kickback then 1 else 0)
    + 20 * (if flags.cms_violation then 1 else 0)
    + 15 * (if flags.hipaa_violation then 1 else 0))

/-- The maximum of the findings' confidences, 0 when there are none, as the
specification phrases the pattern-confidence input of fusion. -/
def specPatternConfidence (patterns : List Pattern) : ℚ :=
  match patterns.map Pattern.confidence with
  | [] => 0
  | c :: cs => cs.foldl max c

/-! ## Concrete fixtures used by counterexamples and witnesses -/

/-- A freshly reported low-severity incident (no rational-valued fields, so
that statements about it are decidable by evaluation). -/
def incReported : Incident := {
  rowId := 1, incident_number := ['A', 'B', 'U', '-', '1'],
  incident_type := .ABUSE, severity := .LOW, status := .REPORTED,
  detection_method := "EMPLOYEE_REPORT", reporter_type := "EMPLOYEE",
  reporter_id := some "e7", incident_date := 100, description := "claim padding",
  affected_count := 0, financial_impact := none,
  compliance_impact := ⟨false, false, false, false⟩,
  oig_referral := false, oig_case_number := none, regulatory_reported := false,
  regulatory_report_date := none, investigation_started := none,
  investigation_completed := none, ai_confidence_score := none,
  risk_score := some 20,
  timeline := [reportedEntry 100 "e7" "ABUSE" "EMPLOYEE_REPORT"] }

/-- A resolved (terminal-status) incident. -/
def incResolved : Incident := {
  rowId := 2, incident_number := ['F', 'R', 'A', '-', '2'],
  incident_type := .FRAUD, severity := .HIGH, status := .RESOLVED,
  detection_method := "MANUAL_REVIEW", reporter_type := "AUDITOR",
  reporter_id := some "a3", incident_date := 200, description := "ghost billing",
  affected_count := 5, financial_impact := none,
  compliance_impact := ⟨false, false, false, false⟩,
  oig_referral := false, oig_case_number := none, regulatory_reported := false,
  regulatory_report_date := none, investigation_started := some 210,
  investigation_completed := some 290, ai_confidence_score := none,
  risk_score := some 80,
  timeline := [reportedEntry 200 "a3" "FRAUD" "MANUAL_REVIEW"] }

/-- The billing batch of the specification's worked example. -/
def batch6 : List Bill :=
  [⟨1, 100⟩, ⟨2, 100⟩, ⟨3, 105⟩, ⟨4, 98⟩, ⟨5, 100⟩, ⟨6, 5000⟩]

/-- The single DUPLICATE_AMOUNTS finding the code produces for batch6: the
two occurrences of 100 after its first. -/
def dupPattern6 : Pattern :=
  { category := none, ptype := some "DUPLICATE_AMOUNTS", pattern := none,
    count := some 2, confidence := 4/5,
    description := some "Multiple bills with identical amounts detected" }

/-- The incident reportFWAIncident creates for a HIGH-risk analysis with
confidence 4/5 and no pattern findings, at time 1000. -/
def incHigh0 : Incident :=
  createIncident {
    rowId := 9, incident_type := .SUSPICIOUS_ACTIVITY, severity := .HIGH,
    detection_method := "AI_DETECTION", reporter_type := "SYSTEM",
    reporter_id := none, incident_date := 1000,
    description := generateIncidentDescription (4/5) .HIGH [] "call_analysis",
    affected_count := 0, financial_impact := none,
    compliance_impact := ⟨false, false, false, false⟩,
    ai_confidence_score := some (4/5),
    risk_score := some (jsRound ((4/5) * 100)) } 1000

/-- Create input for one of two same-type, same-millisecond incidents. -/
def inputA : CreateInput := {
  rowId := 11, incident_type := .FRAUD, severity := .MEDIUM,
  detection_method := "AUDIT_FINDING", reporter_type := "AUDITOR",
  reporter_id := some "a1", incident_date := 400, description := "first report",
  affected_count := 0, financial_impact := none,
  compliance_impact := ⟨false, false, false, false⟩,
  ai_confidence_score := none, risk_score := none }

/-- Create input for the other same-type, same-millisecond incident. -/
def inputB : CreateInput := {
  rowId := 12, incident_type := .FRAUD, severity := .LOW,
  detection_method := "ANONYMOUS_TIP", reporter_type := "ANONYMOUS",
  reporter_id := none, incident_date := 401, description := "second report",
  affected_count := 0, financial_impact := none,
  compliance_impact := ⟨false, false, false, false⟩,
  ai_confidence_score := none, risk_score := none }

/-- A billing-category pattern finding as patternMatcher.analyzeText emits
for a ghost-patient phrase match (confidence 0.85). -/
def ghostPattern : Pattern :=
  { category := some "billing", ptype := none, pattern := some "ghost\\s+patient",
    count := none, confidence := 17/20, description := none }

/-- Evaluation map recovering a digit value from its base-36 character. -/
def b36CharVal (c : Char) : Nat :=
  if c.toNat ≥ 65 then c.toNat - 55 else c.toNat - 48

/-- Value of a little-endian base-36 digit list. -/
def ofB36 : List Nat → Nat
  | [] => 0
  | d :: ds => d + 36 * ofB36 ds

/-! ## Helper lemmas -/

lemma status_mem_changedFields (orig cur : Incident) :
    "status" ∈ changedFields orig cur ↔ cur.status ≠ orig.status := by
  simp [changedFields, flag, List.mem_append]

lemma timeline_mem_changedFields (orig cur : Incident) (h : cur.timeline ≠ orig.timeline) :
    "timeline" ∈ changedFields orig cur := by
  simp [changedFields, flag, List.mem_append, h]

lemma changedFields_ne_nil (orig cur : Incident) (h : cur.timeline ≠ orig.timeline) :
    changedFields orig cur ≠ [] :=
  fun hnil => by simpa [hnil] using timeline_mem_changedFields orig cur h

lemma append_singleton_ne (l : List Entry) (e : Entry) : l ++ [e] ≠ l := by
  intro h
  have := congrArg List.length h
  simp at this

lemma save_eq_hook (orig cur : Incident) (now : Nat) (h : changedFields orig cur ≠ []) :
    save orig cur now = applyUpdateHook cur (changedFields orig cur) now := by
  simp [save, h]

lemma hook_severity (cur : Incident) (changes : List String) (now : Nat) :
    (applyUpdateHook cur changes now).severity = cur.severity := by
  by_cases hst : "status" ∈ changes <;>
    simp [applyUpdateHook, hst, apply_ite Incident.severity]

lemma hook_status (cur : Incident) (changes : List String) (now : Nat) :
    (applyUpdateHook cur changes now).status = cur.status := by
  by_cases hst : "status" ∈ changes <;>
    simp [applyUpdateHook, hst, apply_ite Incident.status]

lemma hook_oig_referral (cur : Incident) (changes : List String) (now : Nat) :
    (applyUpdateHook cur changes now).oig_referral = cur.oig_referral := by
  by_cases hst : "status" ∈ changes <;>
    simp [applyUpdateHook, hst, apply_ite Incident.oig_referral]

lemma hook_oig_case_number (cur : Incident) (changes : List String) (now : Nat) :
    (applyUpdateHook cur changes now).oig_case_number = cur.oig_case_number := by
  by_cases hst : "status" ∈ changes <;>
    simp [applyUpdateHook, hst, apply_ite Incident.oig_case_number]

lemma hook_regulatory_reported (cur : Incident) (changes : List String) (now : Nat) :
    (applyUpdateHook cur changes now).regulatory_reported = cur.regulatory_reported := by
  by_cases hst : "status" ∈ changes <;>
    simp [applyUpdateHook, hst, apply_ite Incident.regulatory_reported]

lemma hook_regulatory_report_date (cur : Incident) (changes : List String) (now : Nat) :
    (applyUpdateHook cur changes now).regulatory_report_date = cur.regulatory_report_date := by
  by_cases hst : "status" ∈ changes <;>
    simp [applyUpdateHook, hst, apply_ite Incident.regulatory_report_date]

lemma hook_timeline (cur : Incident) (changes : List String) (now : Nat) :
    (applyUpdateHook cur changes now).timeline = cur.timeline ++
      [[("action", JVal.str (if "status" ∈ changes
            then "STATUS_CHANGED_TO_" ++ statusName cur.status else "UPDATED")),
        ("timestamp", JVal.num now), ("changes", JVal.strs changes)]] := by
  by_cases hst : "status" ∈ changes <;>
    simp [applyUpdateHook, hst, apply_ite Incident.timeline, apply_ite Incident.status]

lemma calc_congr (a b : Incident)
    (h1 : a.severity = b.severity) (h2 : a.incident_type = b.incident_type)
    (h3 : a.financial_impact = b.financial_impact) (h4 : a.affected_count = b.affected_count)
    (h5 : a.compliance_impact = b.compliance_impact) :
    calculateRiskScore a = calculateRiskScore b := by
  simp [calculateRiskScore, h1, h2, h3, h4, h5]

lemma hook_risk (cur : Incident) (changes : List String) (now : Nat) :
    (applyUpdateHook cur changes now).risk_score
      = some (calculateRiskScore (applyUpdateHook cur changes now)) := by
  by_cases hst : "status" ∈ changes <;>
    simp [applyUpdateHook, hst, calculateRiskScore, apply_ite Incident.severity,
      apply_ite Incident.incident_type, apply_ite Incident.financial_impact,
      apply_ite Incident.affected_count, apply_ite Incident.compliance_impact]

lemma calc_eq_spec (inc : Incident) :
    calculateRiskScore inc = specRiskScore inc.severity inc.incident_type
      inc.financial_impact inc.affected_count inc.compliance_impact := by
  cases hs : inc.severity <;> cases ht : inc.incident_type <;>
    simp [calculateRiskScore, specRiskScore, severityScore, specSeverityWeight,
      typeScore, specTypeWeight, financialBand, specFinancialBand,
      affectedBand, specAffectedBand, hs, ht, mul_ite, mul_one, mul_zero]

lemma escCur_timeline (inc : Incident) (reason userId : String) (now : Nat) :
    (escCur inc reason userId now).timeline = inc.timeline ++
      [escalatedEntry now userId reason (escalateSeverity inc.severity)] := rfl

lemma refCur_timeline (inc : Incident) (caseNumber userId : String) (now : Nat) :
    (refCur inc caseNumber userId now).timeline = inc.timeline ++
      [referredEntry now userId caseNumber] := rfl

/-- escalate always runs the hook: the method appended a timeline entry. -/
lemma escalate_eq_hook (inc : Incident) (reason userId : String) (now : Nat) :
    escalate inc reason userId now =
      applyUpdateHook (escCur inc reason userId now)
        (changedFields inc (escCur inc reason userId now)) now := by
  rw [escalate]
  exact save_eq_hook _ _ _
    (changedFields_ne_nil _ _ (escCur_timeline inc reason userId now ▸ append_singleton_ne _ _))

/-- referToOIG always runs the hook, for the same reason. -/
lemma referToOIG_eq_hook (inc : Incident) (caseNumber userId : String) (now : Nat) :
    referToOIG inc caseNumber userId now =
      applyUpdateHook (refCur inc caseNumber userId now)
        (changedFields inc (refCur inc caseNumber userId now)) now := by
  rw [referToOIG]
  exact save_eq_hook _ _ _
    (changedFields_ne_nil _ _ (refCur_timeline inc caseNumber userId now ▸ append_singleton_ne _ _))

lemma foldl_max_eq_spec (patterns : List Pattern) (h : ∀ p ∈ patterns, 0 ≤ p.confidence) :
    (patterns.map Pattern.confidence).foldl max 0 = specPatternConfidence patterns := by
  cases hm : patterns.map Pattern.confidence with
  | nil => simp [specPatternConfidence, hm]
  | cons b t =>
    have hb : (0 : ℚ) ≤ b := by
      have hmem : b ∈ patterns.map Pattern.confidence := by rw [hm]; simp
      obtain ⟨p, hp, rfl⟩ := List.mem_map.mp hmem
      exact h p hp
    simp [specPatternConfidence, hm, List.foldl_cons, max_eq_right hb]

lemma ofB36_b36DigitsAux : ∀ fuel n, n ≤ fuel → ofB36 (b36DigitsAux fuel n) = n := by
  intro fuel
  induction fuel with
  | zero =>
    intro n hn
    have : n = 0 := Nat.le_zero.mp hn
    subst this
    rfl
  | succ f ih =>
    intro n hn
    cases n with
    | zero => rfl
    | succ m =>
      show ofB36 ((m + 1) % 36 :: b36DigitsAux f ((m + 1) / 36)) = m + 1
      have hle : (m + 1) / 36 ≤ f := by
        have h1 : (m + 1) / 36 < m + 1 := Nat.div_lt_self (Nat.succ_pos m) (by norm_num)
        omega
      rw [ofB36, ih ((m + 1) / 36) hle]
      exact Nat.mod_add_div (m + 1) 36

lemma ofB36_b36Digits (n : Nat) : ofB36 (b36Digits n) = n :=
  ofB36_b36DigitsAux n n le_rfl

lemma b36Digits_inj {m n : Nat} (h : b36Digits m = b36Digits n) : m = n := by
  rw [← ofB36_b36Digits m, ← ofB36_b36Digits n, h]

lemma b36DigitsAux_lt : ∀ fuel n d, d ∈ b36DigitsAux fuel n → d < 36 := by
  intro fuel
  induction fuel with
  | zero =>
    intro n d hd
    cases n <;> simp [b36DigitsAux] at hd
  | succ f ih =>
    intro n d hd
    cases n with
    | zero => simp [b36DigitsAux] at hd
    | succ m =>
      simp only [b36DigitsAux, List.mem_cons] at hd
      rcases hd with h | h
      · subst h
        exact Nat.mod_lt _ (by norm_num)
      · exact ih _ _ h

lemma b36Digits_lt (n d : Nat) (hd : d ∈ b36Digits n) : d < 36 :=
  b36DigitsAux_lt n n d hd

lemma b36CharVal_b36Char : ∀ d, d < 36 → b36CharVal (b36Char d) = d := by decide

lemma map_b36Char_roundtrip (xs : List Nat) (hxs : ∀ d ∈ xs, d < 36) :
    xs.map (b36CharVal ∘ b36Char) = xs := by
  induction xs with
  | nil => rfl
  | cons a t ih =>
    simp only [List.map_cons, Function.comp_apply]
    rw [b36CharVal_b36Char a (hxs a (by simp)), ih (fun d hd => hxs d (by simp [hd]))]

lemma map_b36Char_inj {ds es : List Nat}
    (hd : ∀ d ∈ ds, d < 36) (he : ∀ d ∈ es, d < 36)
    (h : ds.map b36Char = es.map b36Char) : ds = es := by
  have h2 := congrArg (List.map b36CharVal) h
  simp only [List.map_map] at h2
  rw [map_b36Char_roundtrip ds hd, map_b36Char_roundtrip es he] at h2
  exact h2

lemma toBase36_zero_iff (n : Nat) (h : toBase36 n = ['0']) : n = 0 := by
  by_cases hn : n = 0
  · exact hn
  · exfalso
    rw [toBase36, if_neg hn] at h
    have hz : ([0] : List Nat).map b36Char = ['0'] := by decide
    have hrev : (b36Digits n).reverse = [0] :=
      map_b36Char_inj
        (fun d hd => b36Digits_lt n d (List.mem_reverse.mp hd))
        (by intro d hd; simp at hd; omega)
        (h.trans hz.symm)
    have h0 : b36Digits n = [0] := by
      have := congrArg List.reverse hrev
      simpa using this
    have hv := ofB36_b36Digits n
    rw [h0] at hv
    simp [ofB36] at hv
    exact hn hv.symm

lemma toBase36_inj {m n : Nat} (h : toBase36 m = toBase36 n) : m = n := by
  by_cases hm : m = 0
  · subst hm
    have : toBase36 n = ['0'] := by rw [← h]; rfl
    exact (toBase36_zero_iff n this).symm
  · by_cases hn : n = 0
    · subst hn
      have : toBase36 m = ['0'] := by rw [h]; rfl
      exact toBase36_zero_iff m this
    · rw [toBase36, if_neg hm, toBase36, if_neg hn] at h
      have hrev : (b36Digits m).reverse = (b36Digits n).reverse :=
        map_b36Char_inj
          (fun d hd => b36Digits_lt m d (List.mem_reverse.mp hd))
          (fun d hd => b36Digits_lt n d (List.mem_reverse.mp hd)) h
      exact b36Digits_inj (List.reverse_injective hrev)

lemma typeCode_inj : ∀ t1 t2 : IncidentType, typeCode t1 = typeCode t2 → t1 = t2 := by decide

lemma typeCode_length : ∀ t : IncidentType, (typeCode t).length = 3 := by decide

lemma genIncidentNumber_inj {t1 t2 : IncidentType} {ms1 ms2 : Nat}
    (h : genIncidentNumber t1 ms1 = genIncidentNumber t2 ms2) : t1 = t2 ∧ ms1 = ms2 := by
  have hlen : (typeCode t1).length = (typeCode t2).length := by
    rw [typeCode_length, typeCode_length]
  obtain ⟨h1, h2⟩ := List.append_inj h hlen
  exact ⟨typeCode_inj t1 t2 h1, toBase36_inj (List.cons_injective h2)⟩

/-- Timeline shape after escalate: the method's ESCALATED entry followed by
the hook's UPDATED entry (escalate never changes status). -/
lemma escalate_timeline (inc : Incident) (reason userId : String) (now : Nat) :
    (escalate inc reason userId now).timeline = inc.timeline ++
      [escalatedEntry now userId reason (escalateSeverity inc.severity),
       [("action", JVal.str "UPDATED"), ("timestamp", JVal.num now),
        ("changes", JVal.strs (changedFields inc (escCur inc reason userId now)))]] := by
  rw [escalate_eq_hook, hook_timeline, escCur_timeline]
  have hst : ¬ ("status" ∈ changedFields inc (escCur inc reason userId now)) := by
    rw [status_mem_changedFields]
    simp [escCur]
  simp [hst]

/-! ## Claim theorems -/

/-- C1: after creation and after every mutating save, the stored riskScore
equals min(100, severityWeight[severity] + typeWeight[incidentType] +
financialBand(financialImpact) + affectedBand(affectedCount) +
30*falseClaimsAct + 25*antiKickback + 20*cmsViolation + 15*hipaaViolation),
with severity weights LOW 10 / MEDIUM 25 / HIGH 50 / CRITICAL 75, type
weights FRAUD 25 down to WASTE 5 with default 10, financial bands
over 100000 add 25 / over 10000 add 15 / over 1000 add 5 else 0, affected
bands over 100 add 20 / over 10 add 10 / over 1 add 5 else 0 — even when the
caller supplies a different risk_score value at creation. -/
theorem c1_riskScore_invariant (input : CreateInput) (r : Option Nat)
    (orig cur : Incident) (nowC nowU : Nat)
    (h : changedFields orig cur ≠ []) :
    ((createIncident input nowC).risk_score
        = some (specRiskScore (createIncident input nowC).severity
            (createIncident input nowC).incident_type
            (createIncident input nowC).financial_impact
            (createIncident input nowC).affected_count
            (createIncident input nowC).compliance_impact))
    ∧ createIncident { input with risk_score := r } nowC = createIncident input nowC
    ∧ ((save orig cur nowU).risk_score
        = some (specRiskScore (save orig cur nowU).severity
            (save orig cur nowU).incident_type
            (save orig cur nowU).financial_impact
            (save orig cur nowU).affected_count
            (save orig cur nowU).compliance_impact)) := by
  refine ⟨?_, rfl, ?_⟩
  · rw [← calc_eq_spec]
    rfl
  · rw [← calc_eq_spec, save_eq_hook orig cur nowU h]
    exact hook_risk cur (changedFields orig cur) nowU

/-- C1 witness: the hypotheses are satisfiable and the invariant holds at a
concrete creation and a concrete mutating save. -/
theorem c1_riskScore_invariant_witness :
    changedFields incReported { incReported with severity := Severity.HIGH } ≠ []
    ∧ (((createIncident inputA 123456).risk_score
        = some (specRiskScore (createIncident inputA 123456).severity
            (createIncident inputA 123456).incident_type
            (createIncident inputA 123456).financial_impact
            (createIncident inputA 123456).affected_count
            (createIncident inputA 123456).compliance_impact))
      ∧ createIncident { inputA with risk_score := some 7 } 123456 = createIncident inputA 123456
      ∧ (((save incReported { incReported with severity := Severity.HIGH } 777).risk_score
          = some (specRiskScore
              (save incReported { incReported with severity := Severity.HIGH } 777).severity
              (save incReported { incReported with severity := Severity.HIGH } 777).incident_type
              (save incReported { incReported with severity := Severity.HIGH } 777).financial_impact
              (save incReported { incReported with severity := Severity.HIGH } 777).affected_count
              (save incReported { incReported with severity := Severity.HIGH } 777).compliance_impact))))
    :=
  ⟨by decide,
   c1_riskScore_invariant inputA (some 7) incReported
     { incReported with severity := Severity.HIGH } 123456 777 (by decide)⟩

/-- C2 counterexample: referring a RESOLVED incident to the OIG does not
fail with any error and does mutate: the status becomes REFERRED_TO_OIG and
two timeline entries are appended — the claim's required rejection does not
happen. -/
theorem c2_counterexample :
    (referToOIG incResolved "OIG-2025-001" "officer1" 900).status = Status.REFERRED_TO_OIG
    ∧ (referToOIG incResolved "OIG-2025-001" "officer1" 900).status ≠ incResolved.status
    ∧ (referToOIG incResolved "OIG-2025-001" "officer1" 900).timeline.length
        = incResolved.timeline.length + 2
    ∧ (referToOIG incResolved "OIG-2025-001" "officer1" 900).oig_referral = true := by
  refine ⟨?_, ?_, ?_, ?_⟩ <;> decide

/-- C2 amended: no transition validation exists. referToOIG succeeds from
every prior status — terminal ones included — unconditionally setting the
referral fields and status REFERRED_TO_OIG and appending two timeline
entries; no InvalidTransition error is produced anywhere. -/
theorem c2_no_transition_validation (inc : Incident) (caseNumber userId : String) (now : Nat) :
    (referToOIG inc caseNumber userId now).status = Status.REFERRED_TO_OIG
    ∧ (referToOIG inc caseNumber userId now).oig_referral = true
    ∧ (referToOIG inc caseNumber userId now).oig_case_number = some caseNumber
    ∧ (referToOIG inc caseNumber userId now).regulatory_reported = true
    ∧ (referToOIG inc caseNumber userId now).regulatory_report_date = some now
    ∧ (referToOIG inc caseNumber userId now).timeline.length = inc.timeline.length + 2 := by
  rw [referToOIG_eq_hook]
  refine ⟨?_, ?_, ?_, ?_, ?_, ?_⟩
  · rw [hook_status]; rfl
  · rw [hook_oig_referral]; rfl
  · rw [hook_oig_case_number]; rfl
  · rw [hook_regulatory_reported]; rfl
  · rw [hook_regulatory_report_date]; rfl
  · rw [hook_timeline, refCur_timeline]
    simp

/-- C10: each successful escalate or referToOIG call appends exactly two
entries to the incident's timeline — the entry written by the method itself
(ESCALATED or REFERRED_TO_OIG) plus the entry appended by the beforeUpdate
hook (UPDATED for escalate, which never changes status; for referToOIG,
STATUS_CHANGED_TO_REFERRED_TO_OIG unless the status already was
REFERRED_TO_OIG, in which case UPDATED) — all prior entries are preserved
unchanged, and the hook recomputes the risk score. -/
theorem c10_lifecycle_timeline_appends (inc : Incident) (reason caseNumber userId : String)
    (now : Nat) :
    ((escalate inc reason userId now).timeline = inc.timeline ++
      [escalatedEntry now userId reason (escalateSeverity inc.severity),
       [("action", JVal.str "UPDATED"), ("timestamp", JVal.num now),
        ("changes", JVal.strs (changedFields inc (escCur inc reason userId now)))]])
    ∧ ((escalate inc reason userId now).risk_score
        = some (calculateRiskScore (escalate inc reason userId now)))
    ∧ ((referToOIG inc caseNumber userId now).timeline = inc.timeline ++
      [referredEntry now userId caseNumber,
       [("action", JVal.str (if inc.status = Status.REFERRED_TO_OIG then "UPDATED"
            else "STATUS_CHANGED_TO_REFERRED_TO_OIG")),
        ("timestamp", JVal.num now),
        ("changes", JVal.strs (changedFields inc (refCur inc caseNumber userId now)))]])
    ∧ ((referToOIG inc caseNumber userId now).risk_score
        = some (calculateRiskScore (referToOIG inc caseNumber userId now))) := by
  refine ⟨?_, ?_, ?_, ?_⟩
  · exact escalate_timeline inc reason userId now
  · rw [escalate_eq_hook]
    exact hook_risk _ _ _
  · rw [referToOIG_eq_hook, hook_timeline, refCur_timeline]
    have hst : ("status" ∈ changedFields inc (refCur inc caseNumber userId now))
        ↔ ¬ (inc.status = Status.REFERRED_TO_OIG) := by
      rw [status_mem_changedFields]
      constructor
      · intro hne heq
        exact hne (by simp [refCur, heq])
      · intro hne heq
        exact hne (by simpa [refCur] using heq.symm)
    by_cases hS : inc.status = Status.REFERRED_TO_OIG
    · rw [if_neg (by rw [hst]; simp [hS]), if_pos hS]
      simp
    · rw [if_pos (hst.mpr hS), if_neg hS]
      have hrs : (refCur inc caseNumber userId now).status = Status.REFERRED_TO_OIG := rfl
      rw [hrs]
      simp [statusName]
  · rw [referToOIG_eq_hook]
    exact hook_risk _ _ _

/-- C3: for every analyzed call transcript, the overall confidence equals
min(1.0, 0.5*patternConfidence + 0.4*classificationConfidence +
sentimentBias), where patternConfidence is the maximum confidence over the
pattern findings (0 if none), sentimentBias is 0.2 exactly when
sentiment < -0.3 and 0 otherwise, and the risk level is assigned by
inclusive lower bounds: CRITICAL at 0.9, HIGH at 0.8, MEDIUM at 0.6, else
LOW. Pattern confidences are nonnegative (the extractors emit 0.85 or a
positive capped keyword score). -/
theorem c3_fusion_formula (textLength : Nat) (patterns : List Pattern)
    (classification : Classification) (sentiment : ℚ)
    (callId agentId : Option String) (now : Nat)
    (hp : ∀ p ∈ patterns, 0 ≤ p.confidence) :
    ((analyzeCall textLength patterns classification sentiment callId agentId now).confidence
      = min 1 ((1/2) * specPatternConfidence patterns
          + (2/5) * classification.confidence
          + (if sentiment < -(3/10) then 1/5 else 0)))
    ∧ ((analyzeCall textLength patterns classification sentiment callId agentId now).riskLevel
      = (if (analyzeCall textLength patterns classification sentiment callId agentId
              now).confidence ≥ 9/10 then RiskLevel.CRITICAL
         else if (analyzeCall textLength patterns classification sentiment callId agentId
              now).confidence ≥ 4/5 then RiskLevel.HIGH
         else if (analyzeCall textLength patterns classification sentiment callId agentId
              now).confidence ≥ 3/5 then RiskLevel.MEDIUM
         else RiskLevel.LOW)) := by
  constructor
  · have hfold : patterns.foldl (fun acc p => max acc p.confidence) 0
        = specPatternConfidence patterns := by
      have h1 : patterns.foldl (fun acc p => max acc p.confidence) 0
          = (patterns.map Pattern.confidence).foldl max 0 := by
        rw [List.foldl_map]
      rw [h1, foldl_max_eq_spec patterns hp]
    simp only [analyzeCall, hfold]
    ring_nf
  · rfl

/-- C3 witness: the fusion formula and threshold classification at a
concrete call with one 0.85-confidence pattern finding, classifier
confidence 0.9 and neutral sentiment. -/
theorem c3_fusion_formula_witness :
    ((analyzeCall 40 [ghostPattern] ⟨9/10, "FRAUD"⟩ 0 (some "c1") none 5).confidence
      = min 1 ((1/2) * specPatternConfidence [ghostPattern]
          + (2/5) * (9/10)
          + (if (0 : ℚ) < -(3/10) then 1/5 else 0)))
    ∧ ((analyzeCall 40 [ghostPattern] ⟨9/10, "FRAUD"⟩ 0 (some "c1") none 5).riskLevel
      = (if (analyzeCall 40 [ghostPattern] ⟨9/10, "FRAUD"⟩ 0 (some "c1") none
              5).confidence ≥ 9/10
          then RiskLevel.CRITICAL
         else if (analyzeCall 40 [ghostPattern] ⟨9/10, "FRAUD"⟩ 0 (some "c1") none
              5).confidence ≥ 4/5
          then RiskLevel.HIGH
         else if (analyzeCall 40 [ghostPattern] ⟨9/10, "FRAUD"⟩ 0 (some "c1") none
              5).confidence ≥ 3/5
          then RiskLevel.MEDIUM
         else RiskLevel.LOW)) :=
  c3_fusion_formula 40 [ghostPattern] ⟨9/10, "FRAUD"⟩ 0 (some "c1") none 5
    (by intro p hp; simp at hp; subst hp; norm_num [ghostPattern])

/-- C5 counterexample: a failing classifier extractor aborts the whole
analysis — analyzeCallTranscript rethrows from its catch block, the caller
receives the error and no degraded analysis is produced — contradicting the
claim that an extractor failure is never surfaced as an analysis error. -/
theorem c5_counterexample :
    analyzeCallTranscriptE 20 [] (Except.error "classifier unavailable") 0 none none 7
      = Except.error "classifier unavailable" := rfl

/-- C5 amended: the failure of the classifier extractor aborts the whole
analysis: analyzeCallTranscript's catch block logs and rethrows, so the
error propagates to the caller unchanged, and only a successful classifier
run yields an analysis. -/
theorem c5_extractor_failure_propagates (textLength : Nat) (patterns : List Pattern)
    (sentiment : ℚ) (callId agentId : Option String) (now : Nat)
    (e : String) (c : Classification) :
    (analyzeCallTranscriptE textLength patterns (Except.error e) sentiment callId agentId now
      = Except.error e)
    ∧ (analyzeCallTranscriptE textLength patterns (Except.ok c) sentiment callId agentId now
      = Except.ok (analyzeCall textLength patterns c sentiment callId agentId now)) :=
  ⟨rfl, rfl⟩

/-- C6 counterexample: escalating a LOW incident appends an ESCALATED entry
whose only severity value is the new severity MEDIUM; no key of the entry
carries the old severity LOW, contradicting the claim that the entry records
both the old and the new severity. -/
theorem c6_counterexample :
    (escalate incReported "no progress" "u1" 500).severity = Severity.MEDIUM
    ∧ (escalate incReported "no progress" "u1" 500).timeline.get? 1
        = some (escalatedEntry 500 "u1" "no progress" Severity.MEDIUM)
    ∧ (("new_severity", JVal.sev Severity.MEDIUM)
        ∈ escalatedEntry 500 "u1" "no progress" Severity.MEDIUM)
    ∧ (∀ k, ("old" ++ k, JVal.sev Severity.LOW) ∉ escalatedEntry 500 "u1" "no progress"
        Severity.MEDIUM)
    ∧ (∀ k, (k, JVal.sev Severity.LOW) ∉ escalatedEntry 500 "u1" "no progress"
        Severity.MEDIUM) := by
  refine ⟨by decide, by decide, by decide, ?_, ?_⟩
  · intro k
    simp [escalatedEntry]
  · intro k
    simp [escalatedEntry]

/-- C6 amended: escalate raises severity exactly one level along
LOW-MEDIUM-HIGH-CRITICAL with CRITICAL as a ceiling; even at CRITICAL it
still appends its timeline entry (plus the hook's entry); the risk score is
recomputed on save; and the appended ESCALATED entry records the new
severity only — every severity value in the entry is the new one, the old
severity is not recorded. -/
theorem c6_escalate_records_new_severity_only (inc : Incident) (reason userId : String)
    (now : Nat) :
    ((escalate inc reason userId now).severity = escalateSeverity inc.severity)
    ∧ (escalateSeverity Severity.LOW = Severity.MEDIUM
       ∧ escalateSeverity Severity.MEDIUM = Severity.HIGH
       ∧ escalateSeverity Severity.HIGH = Severity.CRITICAL
       ∧ escalateSeverity Severity.CRITICAL = Severity.CRITICAL)
    ∧ ((escalate inc reason userId now).timeline.length = inc.timeline.length + 2)
    ∧ ((escalate inc reason userId now).risk_score
        = some (calculateRiskScore (escalate inc reason userId now)))
    ∧ ((escalate inc reason userId now).timeline.get? inc.timeline.length
        = some (escalatedEntry now userId reason (escalateSeverity inc.severity)))
    ∧ (∀ k v, (k, JVal.sev v) ∈ escalatedEntry now userId reason (escalateSeverity inc.severity)
        → v = escalateSeverity inc.severity) := by
  have htl : (escalate inc reason userId now).timeline = inc.timeline ++
      [escalatedEntry now userId reason (escalateSeverity inc.severity),
       [("action", JVal.str "UPDATED"), ("timestamp", JVal.num now),
        ("changes", JVal.strs (changedFields inc (escCur inc reason userId now)))]] :=
    escalate_timeline inc reason userId now
  refine ⟨?_, by decide, ?_, ?_, ?_, ?_⟩
  · rw [escalate_eq_hook, hook_severity]
    rfl
  · rw [htl]
    simp
  · rw [escalate_eq_hook]
    exact hook_risk _ _ _
  · rw [htl]
    rw [List.get?_append_right (le_refl _)]
    simp
  · intro k v hv
    simp [escalatedEntry] at hv
    exact hv.2

/-- C6 witness: the amended escalate behaviour at a concrete LOW incident. -/
theorem c6_escalate_records_new_severity_only_witness :
    ((escalate incReported "w" "u2" 600).severity = escalateSeverity incReported.severity)
    ∧ (escalateSeverity Severity.LOW = Severity.MEDIUM
       ∧ escalateSeverity Severity.MEDIUM = Severity.HIGH
       ∧ escalateSeverity Severity.HIGH = Severity.CRITICAL
       ∧ escalateSeverity Severity.CRITICAL = Severity.CRITICAL)
    ∧ ((escalate incReported "w" "u2" 600).timeline.length = incReported.timeline.length + 2)
    ∧ ((escalate incReported "w" "u2" 600).risk_score
        = some (calculateRiskScore (escalate incReported "w" "u2" 600)))
    ∧ ((escalate incReported "w" "u2" 600).timeline.get? incReported.timeline.length
        = some (escalatedEntry 600 "u2" "w" (escalateSeverity incReported.severity)))
    ∧ (∀ k v, (k, JVal.sev v) ∈ escalatedEntry 600 "u2" "w"
          (escalateSeverity incReported.severity)
        → v = escalateSeverity incReported.severity) :=
  c6_escalate_records_new_severity_only incReported "w" "u2" 600

/-- C4 counterexample: on the batch [100,100,105,98,100,5000] the code flags
no statistical outlier at all (the 5000 item's z-score squared is just below
5, not above 9 — in fact no 6-element batch can produce a population z-score
above 3), produces a single DUPLICATE_AMOUNTS finding with count 2 rather
than three duplicate findings, and an incident created from this billing
analysis resolves to type SUSPICIOUS_ACTIVITY, not BILLING_IRREGULARITY,
because billing pattern findings carry no category key. -/
theorem c4_counterexample :
    detectBillingAnomalies batch6 (billingMean batch6) (billingVariance batch6) = []
    ∧ detectBillingPatterns batch6 = [dupPattern6]
    ∧ dupPattern6.count = some 2
    ∧ determineIncidentType (analyzeBillingPattern batch6).patterns
        = IncidentType.SUSPICIOUS_ACTIVITY := by
  have hmean : billingMean batch6 = 5503/6 := by
    norm_num [billingMean, batch6]
  have hvar : billingVariance batch6 = 120020765/36 := by
    norm_num [billingVariance, billingMean, batch6]
  have hanom : detectBillingAnomalies batch6 (billingMean batch6) (billingVariance batch6)
      = [] := by
    rw [hmean, hvar]
    norm_num [detectBillingAnomalies, batch6, List.filterMap]
  have hpat : detectBillingPatterns batch6 = [dupPattern6] := by
    norm_num [detectBillingPatterns, duplicateAmounts, duplicateAmountsAux, jsIndexOf,
      batch6, dupPattern6]
  refine ⟨hanom, hpat, rfl, ?_⟩
  have hana : (analyzeBillingPattern batch6).patterns = [dupPattern6] := by
    simp only [analyzeBillingPattern]
    exact hpat
  rw [hana]
  decide

/-- C4 amended: for the batch [100,100,105,98,100,5000] the analysis finds
no statistical outlier (every item's squared deviation is at most 5 times
the population variance, so no z-score magnitude exceeds 3), reports one
DUPLICATE_AMOUNTS pattern finding counting the 2 repeat occurrences of 100,
fuses to confidence 0.8 (risk level HIGH), and an incident created from this
result receives type SUSPICIOUS_ACTIVITY. -/
theorem c4_billing_batch_example :
    analyzeBillingPattern batch6 =
      { confidence := 4/5, riskLevel := RiskLevel.HIGH, anomalies := [],
        patterns := [dupPattern6] }
    ∧ determineIncidentType (analyzeBillingPattern batch6).patterns
        = IncidentType.SUSPICIOUS_ACTIVITY := by
  have h : analyzeBillingPattern batch6 =
      { confidence := 4/5, riskLevel := RiskLevel.HIGH, anomalies := [],
        patterns := [dupPattern6] } := by
    norm_num [analyzeBillingPattern, detectBillingPatterns, duplicateAmounts,
      duplicateAmountsAux, jsIndexOf, detectBillingAnomalies, billingMean, billingVariance,
      batch6, dupPattern6, List.filterMap, determineRiskLevel, thresholdCRITICAL,
      thresholdHIGH, thresholdMEDIUM]
  refine ⟨h, ?_⟩
  rw [h]
  decide

/-- C7 counterexample: an incident created from a HIGH-risk analysis
(confidence 0.8) triggers no alert at creation; the subsequent escalate call
moves its severity up to CRITICAL yet still invokes no alert — the alert
path is not called on the escalate transition into CRITICAL, contradicting
the claim. -/
theorem c7_counterexample :
    reportFWAIncident (4/5) RiskLevel.HIGH [] "call_analysis" none 9 1000
      = some (incHigh0, false)
    ∧ incHigh0.severity = Severity.HIGH
    ∧ (escalateWithAlert incHigh0 "auto" "sys" 2000).1.severity = Severity.CRITICAL
    ∧ (escalateWithAlert incHigh0 "auto" "sys" 2000).2 = false := by
  refine ⟨?_, rfl, ?_, rfl⟩
  · rw [reportFWAIncident, if_neg (by norm_num [thresholdLOW])]
    rfl
  · show (escalate incHigh0 "auto" "sys" 2000).severity = Severity.CRITICAL
    rw [escalate_eq_hook, hook_severity]
    rfl

/-- C7 amended: the critical-alert path (autoEscalateIncident) is invoked
exactly when an incident is created through reportFWAIncident with severity
resolving to CRITICAL; reportFWAIncident returns nothing below the 0.3
reporting floor; and escalate never invokes the alert path, even when it
moves severity into CRITICAL. -/
theorem c7_alert_only_at_creation (confidence : ℚ) (riskLevel : RiskLevel)
    (patterns : List Pattern) (source : String) (reporterId : Option String)
    (rowId now : Nat) :
    (reportFWAIncident confidence riskLevel patterns source reporterId rowId now = none
      ↔ confidence < thresholdLOW)
    ∧ (∀ inc fired,
        reportFWAIncident confidence riskLevel patterns source reporterId rowId now
          = some (inc, fired)
        → (fired = true ↔ inc.severity = Severity.CRITICAL))
    ∧ (∀ (inc : Incident) (reason userId : String) (t : Nat),
        (escalateWithAlert inc reason userId t).2 = false) := by
  refine ⟨?_, ?_, fun inc reason userId t => rfl⟩
  · constructor
    · intro hnone
      by_contra hc
      rw [reportFWAIncident, if_neg hc] at hnone
      exact Option.some_ne_none _ hnone
    · intro hc
      rw [reportFWAIncident, if_pos hc]
  · intro inc fired hsome
    by_cases hc : confidence < thresholdLOW
    · rw [reportFWAIncident, if_pos hc] at hsome
      exact absurd hsome (Option.noConfusion)
    · rw [reportFWAIncident, if_neg hc] at hsome
      have hpair := Option.some.inj hsome
      rw [Prod.mk.injEq] at hpair
      obtain ⟨h1, h2⟩ := hpair
      subst h1
      subst h2
      simp only [decide_eq_true_eq]
      exact Iff.rfl

/-- C7 witness: the amended alert behaviour at a concrete CRITICAL-severity
creation, discharging the implications. -/
theorem c7_alert_only_at_creation_witness :
    ((reportFWAIncident (19/20) RiskLevel.CRITICAL [] "call_analysis" none 3 50 = none
      ↔ (19/20 : ℚ) < thresholdLOW)
    ∧ (∀ inc fired,
        reportFWAIncident (19/20) RiskLevel.CRITICAL [] "call_analysis" none 3 50
          = some (inc, fired)
        → (fired = true ↔ inc.severity = Severity.CRITICAL))
    ∧ (∀ (inc : Incident) (reason userId : String) (t : Nat),
        (escalateWithAlert inc reason userId t).2 = false)) :=
  c7_alert_only_at_creation (19/20) RiskLevel.CRITICAL [] "call_analysis" none 3 50

/-- C8 counterexample: two analyze calls on identical evidence one
millisecond apart — the second seeing the cache the first wrote, well within
the 3600-second TTL — do not return the same AnalysisResult: the results
differ in their analyzedAt metadata, so the full result contents are not
equal. -/
theorem c8_counterexample :
    (analyzeWithCache [] 12 [] ⟨1/2, "NORMAL"⟩ 0 (some "c1") none 0).1
      ≠ (analyzeWithCache (analyzeWithCache [] 12 [] ⟨1/2, "NORMAL"⟩ 0 (some "c1") none 0).2
          12 [] ⟨1/2, "NORMAL"⟩ 0 (some "c1") none 1).1 := by
  intro h
  have h2 := congrArg Analysis.analyzedAt h
  simp only [analyzeWithCache, analyzeCall] at h2
  exact absurd h2 (by decide)

/-- C8 amended: the analysis computation is deterministic and never reads
the cache, so two calls with identical evidence and kind agree on overall
confidence, risk level, findings, indicators and recommendations regardless
of cache state; only the analyzedAt timestamp in the result metadata can
differ between the two runs, so the full result objects need not be equal. -/
theorem c8_idempotent_up_to_timestamp (cache1 cache2 : Cache) (textLength : Nat)
    (patterns : List Pattern) (classification : Classification) (sentiment : ℚ)
    (callId agentId : Option String) (t1 t2 : Nat) :
    ((analyzeWithCache cache1 textLength patterns classification sentiment callId agentId
        t1).1.confidence
      = (analyzeWithCache cache2 textLength patterns classification sentiment callId agentId
        t2).1.confidence)
    ∧ ((analyzeWithCache cache1 textLength patterns classification sentiment callId agentId
        t1).1.riskLevel
      = (analyzeWithCache cache2 textLength patterns classification sentiment callId agentId
        t2).1.riskLevel)
    ∧ ((analyzeWithCache cache1 textLength patterns classification sentiment callId agentId
        t1).1.patterns
      = (analyzeWithCache cache2 textLength patterns classification sentiment callId agentId
        t2).1.patterns)
    ∧ ((analyzeWithCache cache1 textLength patterns classification sentiment callId agentId
        t1).1.indicators
      = (analyzeWithCache cache2 textLength patterns classification sentiment callId agentId
        t2).1.indicators)
    ∧ ((analyzeWithCache cache1 textLength patterns classification sentiment callId agentId
        t1).1.recommendations
      = (analyzeWithCache cache2 textLength patterns classification sentiment callId agentId
        t2).1.recommendations)
    ∧ ((analyzeWithCache cache1 textLength patterns classification sentiment callId agentId
        t1).1.textLength
      = (analyzeWithCache cache2 textLength patterns classification sentiment callId agentId
        t2).1.textLength) :=
  ⟨rfl, rfl, rfl, rfl, rfl, rfl⟩

/-- C9 counterexample: two distinct incidents of the same type created in
the same millisecond receive identical incidentNumbers — the generator is a
pure function of the three-letter type code and the millisecond, with no
uniquifying component. -/
theorem c9_counterexample :
    createIncident inputA 123456 ≠ createIncident inputB 123456
    ∧ (createIncident inputA 123456).incident_number
        = (createIncident inputB 123456).incident_number := by
  constructor
  · intro h
    have := congrArg Incident.rowId h
    simp [createIncident, inputA, inputB] at this
  · rfl

/-- C9 amended: every incidentNumber is derived from the incident's type and
creation time — the generator is injective in the (type, millisecond) pair,
so incidents created at different milliseconds, or with different types, get
different numbers — but two incidents of the same type created in the same
millisecond receive the same incidentNumber; uniqueness then rests solely on
the database unique constraint rejecting the second insert. -/
theorem c9_incident_number_derivation (t1 t2 : IncidentType) (ms1 ms2 : Nat)
    (input : CreateInput) (now : Nat) :
    (genIncidentNumber t1 ms1 = genIncidentNumber t2 ms2 ↔ t1 = t2 ∧ ms1 = ms2)
    ∧ (createIncident input now).incident_number
        = genIncidentNumber input.incident_type now := by
  refine ⟨⟨fun h => genIncidentNumber_inj h, ?_⟩, rfl⟩
  rintro ⟨rfl, rfl⟩
  rfl

/-- C9 witness: the injectivity instance at concrete values. -/
theorem c9_incident_number_derivation_witness :
    ((genIncidentNumber IncidentType.FRAUD 123456 = genIncidentNumber IncidentType.FRAUD 123457
      ↔ IncidentType.FRAUD = IncidentType.FRAUD ∧ 123456 = 123457)
    ∧ (createIncident inputA 123456).incident_number
        = genIncidentNumber inputA.incident_type 123456) :=
  c9_incident_number_derivation IncidentType.FRAUD IncidentType.FRAUD 123456 123457 inputA 123456

end Compliance
